import Mathlib

/-!
# Hands-free session controller and level-based voice-activity classifier

A shallow embedding of two pieces of the firmware:

* `Esp32c3Inmp441Board` (`main/boards/esp32c3-inmp441/esp32c3_inmp441_board.cc`):
  the hands-free timer callback `TryStartHandsFreeListening`, the user command
  `ToggleHandsFreeMode` and the push-to-talk button callbacks;
* `NoAudioProcessor` (`main/audio/processors/no_audio_processor.cc`):
  `Initialize`, `Feed`, `Start`, `Stop`, `GetFeedSize`.

Calls into collaborators (`Application`, `AudioService`, `Display`, the two
registered `std::function` sinks) are recorded, in program order, in the list
of commands / sink events a function returns next to the new object state.
Values read from collaborators (`GetDeviceState`, `IsIdle`, `IsVoiceDetected`,
`esp_timer_get_time`) are inputs of the call.
-/

set_option autoImplicit false

namespace HandsFree

/-! ## Configuration (`config.h`) -/

/-- The `HANDS_FREE_AUTO_LISTEN` switch of `config.h`. -/
def HANDS_FREE_AUTO_LISTEN : Nat := 1
/-- The `HANDS_FREE_AUTO_LISTEN_INTERVAL_MS` period of `config.h`. -/
def HANDS_FREE_AUTO_LISTEN_INTERVAL_MS : Int := 500
/-- The `HANDS_FREE_AUTO_LISTEN_RETRY_MS` cooldown of `config.h`. -/
def HANDS_FREE_AUTO_LISTEN_RETRY_MS : Int := 3000
/-- The `HANDS_FREE_IDLE_TIMEOUT_MS` timeout of `config.h`. -/
def HANDS_FREE_IDLE_TIMEOUT_MS : Int := 25000
/-- The `HANDS_FREE_WAKE_WORD_HINT` text of `config.h`. -/
def HANDS_FREE_WAKE_WORD_HINT : String := "Hi Jason"
/-- The `AUDIO_INPUT_SAMPLE_RATE` of `config.h`. -/
def AUDIO_INPUT_SAMPLE_RATE : Int := 24000

/-! ## Machine integers -/

/-- Two's complement reduction of an integer to the `int64_t` range. -/
def wrapInt64 (x : Int) : Int :=
  (x + 9223372036854775808) % 18446744073709551616 - 9223372036854775808

/-- The `int64_t` subtraction `a - b`. -/
def subInt64 (a b : Int) : Int := wrapInt64 (a - b)

/-- The `int64_t` product `(int64_t)ms * 1000`. -/
def msToUs (ms : Int) : Int := wrapInt64 (ms * 1000)

/-- A value `esp_timer_get_time()` can return: microseconds since boot, a
non-negative `int64_t`. -/
def validTime (t : Int) : Prop := 0 ≤ t ∧ t < 9223372036854775808

instance (t : Int) : Decidable (validTime t) := by
  unfold validTime; infer_instance

/-! ## The device session as seen by the board -/

/-- Modelled from the spec: the `DeviceState` enumeration is declared in a
header that is not part of the sources at hand. The spec lists `Starting`,
`Idle`, `Listening`, `Speaking`; every further enumerator is `other`. -/
inductive DeviceState where
  | kDeviceStateStarting
  | kDeviceStateIdle
  | kDeviceStateListening
  | kDeviceStateSpeaking
  | other (tag : Nat)
  deriving DecidableEq, Repr

open DeviceState

/-- A call the board makes into a collaborator. -/
inductive Cmd where
  /-- The command `app.ToggleChatState()`. -/
  | ToggleChatState
  /-- The command `app.GetAudioService().EnableWakeWordDetection(enable)`. -/
  | EnableWakeWordDetection (enable : Bool)
  /-- The command `GetDisplay()->ShowNotification(text)`. -/
  | ShowNotification (text : String)
  /-- The command `app.StartListening()`. -/
  | StartListening
  /-- The command `app.StopListening()`. -/
  | StopListening
  deriving DecidableEq, Repr

/-- What one invocation reads from the application and the timer. -/
structure AppEnv where
  /-- The value of `app.GetDeviceState()`. -/
  device_state : DeviceState
  /-- The value of `app.GetAudioService().IsIdle()`. -/
  audio_idle : Bool
  /-- The value of `app.IsVoiceDetected()`. -/
  voice_detected : Bool
  /-- The value of `esp_timer_get_time()`. -/
  now_us : Int
  deriving DecidableEq, Repr

/-- The mutable members of `Esp32c3Inmp441Board` that the hands-free logic
uses, with their in-class initialisers. -/
structure Esp32c3Inmp441Board where
  last_hands_free_trigger_us_ : Int := 0
  last_voice_activity_us_ : Int := 0
  hands_free_enabled_ : Bool := true
  wait_for_wake_word_ : Bool := false
  boot_button_pressed_ : Bool := false
  deriving DecidableEq, Repr

/-- Number of `ToggleChatState` requests in a command list. -/
def toggleCount (cs : List Cmd) : Nat := cs.count Cmd.ToggleChatState

/-- The method `Esp32c3Inmp441Board::ToggleHandsFreeMode`. -/
def ToggleHandsFreeMode (b : Esp32c3Inmp441Board) (e : AppEnv) :
    Esp32c3Inmp441Board × List Cmd :=
  let b := { b with hands_free_enabled_ := !b.hands_free_enabled_ }
  if b.hands_free_enabled_ then
    let c := [Cmd.ShowNotification "Hands-free ON"]
    let b := { b with last_hands_free_trigger_us_ := 0 }
    let b := { b with last_voice_activity_us_ := e.now_us }
    let b := { b with wait_for_wake_word_ := false }
    let c := c ++ [Cmd.EnableWakeWordDetection true]
    if e.device_state = kDeviceStateIdle then
      (b, c ++ [Cmd.ToggleChatState])
    else
      (b, c)
  else
    let c := [Cmd.ShowNotification "Hands-free OFF"]
    let b := { b with wait_for_wake_word_ := false }
    let c := c ++ [Cmd.EnableWakeWordDetection false]
    if e.device_state = kDeviceStateListening then
      (b, c ++ [Cmd.ToggleChatState])
    else
      (b, c)

/-- The method `Esp32c3Inmp441Board::TryStartHandsFreeListening`; `useWakeWord`
is the compile-time switch `CONFIG_USE_ESP_WAKE_WORD`. -/
def TryStartHandsFreeListening (useWakeWord : Bool) (b : Esp32c3Inmp441Board)
    (e : AppEnv) : Esp32c3Inmp441Board × List Cmd :=
  if HANDS_FREE_AUTO_LISTEN = 0 then (b, []) else
  if !b.hands_free_enabled_ then
    if e.device_state = kDeviceStateIdle then
      (b, [Cmd.EnableWakeWordDetection false])
    else if e.device_state = kDeviceStateListening ∧ !b.boot_button_pressed_ then
      (b, [Cmd.ToggleChatState])
    else
      (b, [])
  else
  let state := e.device_state
  let now_us := e.now_us
  if b.boot_button_pressed_ then
    ({ b with last_voice_activity_us_ := now_us, wait_for_wake_word_ := false }, [])
  else
  if !e.audio_idle then
    ({ b with last_voice_activity_us_ := now_us }, [])
  else
  if state = kDeviceStateSpeaking ∨ e.voice_detected then
    ({ b with last_voice_activity_us_ := now_us, wait_for_wake_word_ := false }, [])
  else
  if state = kDeviceStateListening then
    if subInt64 now_us b.last_voice_activity_us_ ≥ msToUs HANDS_FREE_IDLE_TIMEOUT_MS then
      if useWakeWord then
        ({ b with wait_for_wake_word_ := true,
                  last_hands_free_trigger_us_ := now_us,
                  last_voice_activity_us_ := now_us },
          [Cmd.ToggleChatState,
           Cmd.ShowNotification ("Standby, say: " ++ HANDS_FREE_WAKE_WORD_HINT)])
      else
        ({ b with wait_for_wake_word_ := false,
                  last_hands_free_trigger_us_ := now_us,
                  last_voice_activity_us_ := now_us },
          [Cmd.ToggleChatState])
    else
      (b, [])
  else
  if state = kDeviceStateIdle then
    if b.wait_for_wake_word_ then
      (b, [])
    else if subInt64 now_us b.last_hands_free_trigger_us_
        < msToUs HANDS_FREE_AUTO_LISTEN_RETRY_MS then
      (b, [])
    else
      ({ b with last_hands_free_trigger_us_ := now_us,
                last_voice_activity_us_ := now_us }, [Cmd.ToggleChatState])
  else
    ({ b with wait_for_wake_word_ := false }, [])

/-- Something that happens to the board between two `ToggleHandsFreeMode`
calls: a timer tick, or the push-to-talk button going down or up. -/
inductive BoardEvent where
  /-- The hands-free timer fires and reads `e`. -/
  | tick (e : AppEnv)
  /-- The callback `boot_button_.OnPressDown` runs. -/
  | pressDown
  /-- The callback `boot_button_.OnPressUp` runs. -/
  | pressUp
  deriving DecidableEq, Repr

/-- One event: the timer callback or a push-to-talk callback of
`InitializeButtons`. -/
def stepEvent (useWakeWord : Bool) (b : Esp32c3Inmp441Board) :
    BoardEvent → Esp32c3Inmp441Board × List Cmd
  | .tick e => TryStartHandsFreeListening useWakeWord b e
  | .pressDown => ({ b with boot_button_pressed_ := true }, [Cmd.StartListening])
  | .pressUp => ({ b with boot_button_pressed_ := false }, [Cmd.StopListening])

/-- Runs a sequence of events, recording for each the commands it issued. -/
def runEvents (useWakeWord : Bool) :
    Esp32c3Inmp441Board → List BoardEvent → List (BoardEvent × List Cmd)
  | _, [] => []
  | b, ev :: rest =>
    (ev, (stepEvent useWakeWord b ev).2) ::
      runEvents useWakeWord (stepEvent useWakeWord b ev).1 rest

/-- The tick times of an event sequence, in order. -/
def tickTimes : List BoardEvent → List Int
  | [] => []
  | .tick e :: rest => e.now_us :: tickTimes rest
  | _ :: rest => tickTimes rest

/-- The times `t, l[0], l[1], ...` never decrease. -/
def nonDecreasing : Int → List Int → Bool
  | _, [] => true
  | t, u :: rest => decide (t ≤ u) && nonDecreasing u rest

/-- Hands-free is on and both timestamps lie between `lo` and `cur`. -/
def Stamped (lo cur : Int) (b : Esp32c3Inmp441Board) : Prop :=
  b.hands_free_enabled_ = true ∧
  lo ≤ b.last_hands_free_trigger_us_ ∧ b.last_hands_free_trigger_us_ ≤ cur ∧
  lo ≤ b.last_voice_activity_us_ ∧ b.last_voice_activity_us_ ≤ cur

end HandsFree

namespace VoiceActivity

/-! ## Machine integers -/

/-- Two's complement reduction of an integer to the `int` (32-bit) range. -/
def wrapInt32 (x : Int) : Int := (x + 2147483648) % 4294967296 - 2147483648

/-- Conversion of an integer to `size_t` (32 bits on the ESP32-C3). -/
def toSizeT (x : Int) : Int := x % 4294967296

/-! ## The classifier object -/

/-- Modelled from the spec: the `AudioCodec` class is declared outside the
sources at hand. `Feed` reads `input_channels()`; the input sample rate is the
"device's sample rate" of the spec's frame-size formula, which the board sets
to `AUDIO_INPUT_SAMPLE_RATE`. -/
structure AudioCodec where
  /-- The value of `codec->input_channels()`. -/
  input_channels : Int
  /-- The value of `codec->input_sample_rate()`. -/
  input_sample_rate : Int
  deriving DecidableEq, Repr

/-- A call of one of the two registered sinks. -/
inductive SinkEvent where
  /-- The call `output_callback_(frame)`: a frame reaches the data sink. -/
  | output (frame : List Int)
  /-- The call `vad_state_change_callback_(speaking)`: an edge reaches the
  activity sink. -/
  | vad (speaking : Bool)
  deriving DecidableEq, Repr

/-- Modelled from the spec: the member declarations are in the absent header
`no_audio_processor.h`. The members are those the methods of
`no_audio_processor.cc` read and write; the two frame counters are integers, as
in the spec's data model (`speech_run`, `silence_run`: integer counter). A sink
member is `true` when a callable is registered (the `std::function` is
non-empty); `codec_` is `none` for a null pointer. Samples are `int16_t` values
held as integers. -/
structure NoAudioProcessor where
  codec_ : Option AudioCodec
  frame_samples_ : Int
  is_running_ : Bool
  is_speaking_ : Bool
  speech_frames_ : Int
  silent_frames_ : Int
  output_callback_ : Bool
  vad_state_change_callback_ : Bool
  deriving DecidableEq, Repr

/-- Modelled from the spec: the initial values of the members, whose in-class
initialisers are in the absent header `no_audio_processor.h`: no codec, not
running, not speaking, counters 0; the two sinks as given. -/
def NoAudioProcessor.initial (dataSink activitySink : Bool) : NoAudioProcessor :=
  { codec_ := none, frame_samples_ := 0, is_running_ := false, is_speaking_ := false,
    speech_frames_ := 0, silent_frames_ := 0,
    output_callback_ := dataSink, vad_state_change_callback_ := activitySink }

/-- The method `NoAudioProcessor::Initialize`; the product is formed in `int`. -/
def Initialize (p : NoAudioProcessor) (codec : Option AudioCodec)
    (frame_duration_ms : Int) : NoAudioProcessor :=
  { p with codec_ := codec,
           frame_samples_ := Int.tdiv (wrapInt32 (frame_duration_ms * 16000)) 1000 }

/-- The method `NoAudioProcessor::GetFeedSize`. -/
def GetFeedSize (p : NoAudioProcessor) : Int :=
  match p.codec_ with
  | none => 0
  | some _ => toSizeT p.frame_samples_

/-- The method `NoAudioProcessor::OnOutput`, registering a callable. -/
def OnOutput (p : NoAudioProcessor) : NoAudioProcessor :=
  { p with output_callback_ := true }

/-- The method `NoAudioProcessor::OnVadStateChange`, registering a callable. -/
def OnVadStateChange (p : NoAudioProcessor) : NoAudioProcessor :=
  { p with vad_state_change_callback_ := true }

/-- The method `NoAudioProcessor::IsRunning`. -/
def IsRunning (p : NoAudioProcessor) : Bool := p.is_running_

/-- The constant `kSpeechPeakThreshold` of `Feed`. -/
def kSpeechPeakThreshold : Int := 1200
/-- The constant `kSilencePeakThreshold` of `Feed`. -/
def kSilencePeakThreshold : Int := 700
/-- The constant `kSpeechFramesToTrigger` of `Feed`. -/
def kSpeechFramesToTrigger : Int := 2
/-- The constant `kSilenceFramesToTrigger` of `Feed`. -/
def kSilenceFramesToTrigger : Int := 10

/-- The peak loop of `Feed`,
`for (size_t i = 0; i < data.size(); i += step) { ... }`, from index `i` with
the running `peak`. Every iteration advances `i` by `step ≥ 1`, so
`data.length` iterations of fuel are never used up. -/
def peakLoop (data : List Int) (step : Nat) : Nat → Nat → Int → Int
  | 0, _, peak => peak
  | fuel + 1, i, peak =>
    if i < data.length then
      let v := data.getD i 0
      let v := if v < 0 then -v else v
      let peak := if v > peak then v else peak
      peakLoop data step fuel (i + step) peak
    else
      peak

/-- The value of `peak` when the loop of `Feed` ends. -/
def framePeak (codec : AudioCodec) (data : List Int) : Int :=
  let step := if codec.input_channels = 2 then 2 else 1
  peakLoop data step data.length 0 0

/-- The left-channel copy of `Feed`: `mono_data` has `data.size() / 2` entries
and `mono_data[i] = data[2 * i]`. -/
def monoData (data : List Int) : List Int :=
  (List.range (data.length / 2)).map (fun i => data.getD (2 * i) 0)

/-- The method `NoAudioProcessor::Feed`. The result is `none` when the call
dereferences a null `codec_`. -/
def Feed (p : NoAudioProcessor) (data : List Int) :
    Option (NoAudioProcessor × List SinkEvent) :=
  if !p.is_running_ || !p.output_callback_ then
    some (p, [])
  else
    match p.codec_ with
    | none => none
    | some codec =>
      let pe : NoAudioProcessor × List SinkEvent :=
        if p.vad_state_change_callback_ then
          let peak := framePeak codec data
          let p :=
            if peak ≥ kSpeechPeakThreshold then
              { p with speech_frames_ := p.speech_frames_ + 1, silent_frames_ := 0 }
            else if peak ≤ kSilencePeakThreshold then
              { p with silent_frames_ := p.silent_frames_ + 1, speech_frames_ := 0 }
            else
              p
          if !p.is_speaking_ ∧ p.speech_frames_ ≥ kSpeechFramesToTrigger then
            ({ p with is_speaking_ := true }, [SinkEvent.vad true])
          else if p.is_speaking_ ∧ p.silent_frames_ ≥ kSilenceFramesToTrigger then
            ({ p with is_speaking_ := false }, [SinkEvent.vad false])
          else
            (p, [])
        else
          (p, [])
      if codec.input_channels = 2 then
        some (pe.1, pe.2 ++ [SinkEvent.output (monoData data)])
      else
        some (pe.1, pe.2 ++ [SinkEvent.output data])

/-- The method `NoAudioProcessor::Start`. -/
def Start (p : NoAudioProcessor) : NoAudioProcessor :=
  { p with is_running_ := true, is_speaking_ := false,
           speech_frames_ := 0, silent_frames_ := 0 }

/-- The method `NoAudioProcessor::Stop`. -/
def Stop (p : NoAudioProcessor) : NoAudioProcessor × List SinkEvent :=
  let ev := if p.is_speaking_ ∧ p.vad_state_change_callback_ then
      [SinkEvent.vad false] else []
  ({ p with is_running_ := false, is_speaking_ := false,
            speech_frames_ := 0, silent_frames_ := 0 }, ev)

/-- A call made on the classifier by its owner. -/
inductive Call where
  /-- The call `Start()`. -/
  | Start
  /-- The call `Stop()`. -/
  | Stop
  /-- The call `Feed(std::move(data))`. -/
  | Feed (data : List Int)
  deriving DecidableEq, Repr

/-- One call: the new state and the sink events it produced. -/
def stepCall (p : NoAudioProcessor) : Call → Option (NoAudioProcessor × List SinkEvent)
  | .Start => some (Start p, [])
  | .Stop => some (Stop p)
  | .Feed data => Feed p data

/-- Runs a sequence of calls; the result lists, call by call, the sink events
produced, and is `none` when a call faults. -/
def runCalls : NoAudioProcessor → List Call →
    Option (NoAudioProcessor × List (List SinkEvent))
  | p, [] => some (p, [])
  | p, c :: rest =>
    match stepCall p c with
    | none => none
    | some (p1, ev) =>
      match runCalls p1 rest with
      | none => none
      | some (p2, evs) => some (p2, ev :: evs)

/-- The edges delivered to the activity sink, in order. -/
def vadEdges : List SinkEvent → List Bool
  | [] => []
  | .vad s :: rest => s :: vadEdges rest
  | .output _ :: rest => vadEdges rest

/-- The frames delivered to the data sink, in order. -/
def outputFrames : List SinkEvent → List (List Int)
  | [] => []
  | .output f :: rest => f :: outputFrames rest
  | .vad _ :: rest => outputFrames rest

/-- The classifier `p` once running, with the given speaking flag and
counters; the codec, the frame size and the sinks are those of `p`. -/
def runningWith (p : NoAudioProcessor) (speaking : Bool) (speech silent : Int) :
    NoAudioProcessor :=
  { p with is_running_ := true, is_speaking_ := speaking,
           speech_frames_ := speech, silent_frames_ := silent }

/-! ## The spec's words, for comparison with the code -/

/-- Spec-side: the samples at even indices of a frame. -/
def evenIndexed : List Int → List Int
  | [] => []
  | [x] => [x]
  | x :: _ :: rest => x :: evenIndexed rest

/-- Spec-side: the samples of the designated channel, every sample when mono
and the samples at even indices when stereo. -/
def designatedSamples (channels : Int) (data : List Int) : List Int :=
  if channels = 2 then evenIndexed data else data

/-- Spec-side: `peak = max |sample|` over the designated channel (0 for an
empty frame). -/
def specPeak (channels : Int) (data : List Int) : Int :=
  (designatedSamples channels data).foldl (fun m v => max m |v|) 0

end VoiceActivity

namespace HandsFree

open DeviceState

/-- C1: a hands-free timer tick taken while the push-to-talk button is held
requests no `ToggleChatState`, whatever the enabled flag, the session state,
the audio-busy and voice-detected flags, the wake-word-wait gate, the stored
timestamps and the current time are. -/
theorem tick_while_button_held_requests_no_toggle (useWakeWord : Bool)
    (b : Esp32c3Inmp441Board) (e : AppEnv) (hheld : b.boot_button_pressed_ = true) :
    toggleCount (TryStartHandsFreeListening useWakeWord b e).2 = 0 ∧
    Cmd.ToggleChatState ∉ (TryStartHandsFreeListening useWakeWord b e).2 := by
  have hcount : toggleCount (TryStartHandsFreeListening useWakeWord b e).2 = 0 := by
    unfold TryStartHandsFreeListening toggleCount
    simp only [hheld]
    split_ifs <;> simp_all
  exact ⟨hcount, by
    intro hmem
    have := List.count_pos_iff.mpr hmem
    unfold toggleCount at hcount
    omega⟩

/-- Witness for C1: button held, hands-free disabled, session `Listening`. -/
theorem tick_while_button_held_requests_no_toggle_witness :
    toggleCount (TryStartHandsFreeListening true
      { hands_free_enabled_ := false, boot_button_pressed_ := true }
      ⟨kDeviceStateListening, true, false, 40000000⟩).2 = 0 ∧
    Cmd.ToggleChatState ∉ (TryStartHandsFreeListening true
      { hands_free_enabled_ := false, boot_button_pressed_ := true }
      ⟨kDeviceStateListening, true, false, 40000000⟩).2 :=
  tick_while_button_held_requests_no_toggle true
    { hands_free_enabled_ := false, boot_button_pressed_ := true }
    ⟨kDeviceStateListening, true, false, 40000000⟩ rfl

/-! ### Idle timeout while listening -/

theorem wrapInt64_of_small (d : Int) (h0 : -9223372036854775808 ≤ d)
    (h1 : d < 9223372036854775808) : wrapInt64 d = d := by
  unfold wrapInt64; omega

theorem subInt64_add_left (T d : Int) : subInt64 (T + d) T = wrapInt64 d := by
  unfold subInt64
  congr 1
  omega

/-- C2: hands-free enabled, button not held, local audio idle, no voice
detected, session `Listening`, last voice activity at `T`. A tick one
microsecond before `T + HANDS_FREE_IDLE_TIMEOUT_MS * 1000` issues no command and
leaves the board unchanged; a tick at `T + HANDS_FREE_IDLE_TIMEOUT_MS * 1000`
requests exactly one toggle, sets `wait_for_wake_word_` to the wake-word
compile switch, and stamps both timestamps with the tick time. -/
theorem idle_timeout_boundary (useWakeWord : Bool) (b : Esp32c3Inmp441Board)
    (e : AppEnv) (T : Int)
    (hen : b.hands_free_enabled_ = true) (hbtn : b.boot_button_pressed_ = false)
    (haudio : e.audio_idle = true) (hvoice : e.voice_detected = false)
    (hstate : e.device_state = kDeviceStateListening)
    (hT : b.last_voice_activity_us_ = T) :
    (e.now_us = T + HANDS_FREE_IDLE_TIMEOUT_MS * 1000 - 1 →
      TryStartHandsFreeListening useWakeWord b e = (b, [])) ∧
    (e.now_us = T + HANDS_FREE_IDLE_TIMEOUT_MS * 1000 →
      toggleCount (TryStartHandsFreeListening useWakeWord b e).2 = 1 ∧
      (TryStartHandsFreeListening useWakeWord b e).1 =
        { b with wait_for_wake_word_ := useWakeWord,
                 last_hands_free_trigger_us_ := e.now_us,
                 last_voice_activity_us_ := e.now_us }) := by
  constructor
  · intro hnow
    have hsub : subInt64 e.now_us b.last_voice_activity_us_ = 24999999 := by
      rw [hT, hnow, show T + HANDS_FREE_IDLE_TIMEOUT_MS * 1000 - 1 = T + 24999999 by
        simp [HANDS_FREE_IDLE_TIMEOUT_MS]; omega, subInt64_add_left]
      exact wrapInt64_of_small _ (by omega) (by omega)
    have hms : msToUs HANDS_FREE_IDLE_TIMEOUT_MS = 25000000 := by
      simp [msToUs, HANDS_FREE_IDLE_TIMEOUT_MS, wrapInt64]
    simp [TryStartHandsFreeListening, HANDS_FREE_AUTO_LISTEN, hen, hbtn, haudio, hvoice,
      hstate, hsub, hms]
  · intro hnow
    have hsub : subInt64 e.now_us b.last_voice_activity_us_ = 25000000 := by
      rw [hT, hnow, show T + HANDS_FREE_IDLE_TIMEOUT_MS * 1000 = T + 25000000 by
        simp [HANDS_FREE_IDLE_TIMEOUT_MS], subInt64_add_left]
      exact wrapInt64_of_small _ (by omega) (by omega)
    have hms : msToUs HANDS_FREE_IDLE_TIMEOUT_MS = 25000000 := by
      simp [msToUs, HANDS_FREE_IDLE_TIMEOUT_MS, wrapInt64]
    cases useWakeWord <;>
      simp [TryStartHandsFreeListening, HANDS_FREE_AUTO_LISTEN, hen, hbtn, haudio, hvoice,
        hstate, hsub, hms, toggleCount]

/-- Witness for C2: `T = 1000000`, the tick at `T + 25000000`, wake word
compiled in. -/
theorem idle_timeout_boundary_witness :
    toggleCount (TryStartHandsFreeListening true { last_voice_activity_us_ := 1000000 }
      ⟨kDeviceStateListening, true, false, 26000000⟩).2 = 1 ∧
    (TryStartHandsFreeListening true { last_voice_activity_us_ := 1000000 }
      ⟨kDeviceStateListening, true, false, 26000000⟩).1 =
      { last_voice_activity_us_ := 26000000, last_hands_free_trigger_us_ := 26000000,
        wait_for_wake_word_ := true } :=
  (idle_timeout_boundary true { last_voice_activity_us_ := 1000000 }
    ⟨kDeviceStateListening, true, false, 26000000⟩ 1000000 rfl rfl rfl rfl rfl rfl).2
    (by decide)

/-! ### The user command -/

/-- C4: `ToggleHandsFreeMode` called while hands-free is enabled requests
exactly one toggle when the session is `Listening` and none when it is `Idle`;
either way the enabled flag becomes false, the wake-word-wait gate is cleared,
and wake-word detection is commanded off (and never on). -/
theorem disable_hands_free (b : Esp32c3Inmp441Board) (e : AppEnv)
    (hen : b.hands_free_enabled_ = true) :
    (e.device_state = kDeviceStateListening →
      toggleCount (ToggleHandsFreeMode b e).2 = 1) ∧
    (e.device_state = kDeviceStateIdle →
      toggleCount (ToggleHandsFreeMode b e).2 = 0) ∧
    (ToggleHandsFreeMode b e).1.hands_free_enabled_ = false ∧
    (ToggleHandsFreeMode b e).1.wait_for_wake_word_ = false ∧
    Cmd.EnableWakeWordDetection false ∈ (ToggleHandsFreeMode b e).2 ∧
    Cmd.EnableWakeWordDetection true ∉ (ToggleHandsFreeMode b e).2 := by
  refine ⟨?_, ?_, ?_, ?_, ?_, ?_⟩
  · intro h
    simp [ToggleHandsFreeMode, hen, h, toggleCount]
  · intro h
    simp [ToggleHandsFreeMode, hen, h, toggleCount]
  all_goals
    unfold ToggleHandsFreeMode
    simp only [hen]
    split_ifs <;> simp_all

/-- Witness for C4: disabling while `Listening`, button not held. -/
theorem disable_hands_free_witness :
    toggleCount (ToggleHandsFreeMode {} ⟨kDeviceStateListening, true, false, 5000000⟩).2
      = 1 :=
  (disable_hands_free {} ⟨kDeviceStateListening, true, false, 5000000⟩ rfl).1 rfl

/-! ### Reopen cooldown -/

theorem msToUs_retry : msToUs HANDS_FREE_AUTO_LISTEN_RETRY_MS = 3000000 := by
  simp [msToUs, HANDS_FREE_AUTO_LISTEN_RETRY_MS, wrapInt64]

theorem msToUs_idle : msToUs HANDS_FREE_IDLE_TIMEOUT_MS = 25000000 := by
  simp [msToUs, HANDS_FREE_IDLE_TIMEOUT_MS, wrapInt64]

theorem tick_keeps_stamped (useWakeWord : Bool) (lo cur : Int)
    (b : Esp32c3Inmp441Board) (e : AppEnv) (hs : Stamped lo cur b)
    (hcur : cur ≤ e.now_us) :
    Stamped lo e.now_us (TryStartHandsFreeListening useWakeWord b e).1 := by
  obtain ⟨hen, h1, h2, h3, h4⟩ := hs
  unfold TryStartHandsFreeListening Stamped
  simp only [hen, HANDS_FREE_AUTO_LISTEN, one_ne_zero, if_false, Bool.not_true,
    Bool.false_eq_true]
  split_ifs <;> (refine ⟨?_, ?_, ?_, ?_, ?_⟩ <;> dsimp only <;>
    first | assumption | rfl | exact le_refl _ | omega)

theorem tick_in_cooldown_no_toggle (useWakeWord : Bool) (lo cur : Int)
    (b : Esp32c3Inmp441Board) (e : AppEnv) (hs : Stamped lo cur b)
    (hcur : cur ≤ e.now_us) (hlt : e.now_us < lo + 3000000) :
    toggleCount (TryStartHandsFreeListening useWakeWord b e).2 = 0 := by
  obtain ⟨hen, h1, h2, h3, h4⟩ := hs
  have hv : subInt64 e.now_us b.last_voice_activity_us_ < 3000000 := by
    unfold subInt64 wrapInt64; omega
  have ht : subInt64 e.now_us b.last_hands_free_trigger_us_ < 3000000 := by
    unfold subInt64 wrapInt64; omega
  unfold TryStartHandsFreeListening toggleCount
  simp only [hen, msToUs_retry, msToUs_idle, HANDS_FREE_AUTO_LISTEN, one_ne_zero, if_false,
    Bool.not_true, Bool.false_eq_true]
  split_ifs <;> first | rfl | (exfalso; omega)

theorem events_in_cooldown_no_toggle (useWakeWord : Bool) (lo : Int)
    (evs : List BoardEvent) :
    ∀ (cur : Int) (b : Esp32c3Inmp441Board), Stamped lo cur b →
      nonDecreasing cur (tickTimes evs) = true →
      ∀ (e : AppEnv) (cmds : List Cmd),
        (BoardEvent.tick e, cmds) ∈ runEvents useWakeWord b evs →
        e.now_us < lo + 3000000 → toggleCount cmds = 0 := by
  induction evs with
  | nil => intro cur b _ _ e cmds hmem; simp [runEvents] at hmem
  | cons ev rest ih =>
    intro cur b hs hchain e cmds hmem hlt
    cases ev with
    | tick e1 =>
      simp only [tickTimes, nonDecreasing, Bool.and_eq_true, decide_eq_true_eq] at hchain
      simp only [runEvents, stepEvent, List.mem_cons] at hmem
      rcases hmem with heq | hmem
      · obtain ⟨he, hc⟩ := Prod.mk.inj heq
        have he1 : e = e1 := by injection he
        subst he1
        rw [hc]
        exact tick_in_cooldown_no_toggle useWakeWord lo cur b e hs hchain.1 hlt
      · exact ih e1.now_us _ (tick_keeps_stamped useWakeWord lo cur b e1 hs hchain.1)
          hchain.2 e cmds hmem hlt
    | pressDown =>
      simp only [tickTimes] at hchain
      simp only [runEvents, stepEvent, List.mem_cons] at hmem
      rcases hmem with heq | hmem
      · exact absurd (Prod.mk.inj heq).1 (by simp)
      · exact ih cur _ (by simpa [Stamped] using hs) hchain e cmds hmem hlt
    | pressUp =>
      simp only [tickTimes] at hchain
      simp only [runEvents, stepEvent, List.mem_cons] at hmem
      rcases hmem with heq | hmem
      · exact absurd (Prod.mk.inj heq).1 (by simp)
      · exact ih cur _ (by simpa [Stamped] using hs) hchain e cmds hmem hlt

theorem closing_tick_stamps (useWakeWord : Bool) (b : Esp32c3Inmp441Board) (e : AppEnv)
    (hen : b.hands_free_enabled_ = true)
    (hstate : e.device_state = kDeviceStateListening)
    (htoggle : toggleCount (TryStartHandsFreeListening useWakeWord b e).2 = 1) :
    Stamped e.now_us e.now_us (TryStartHandsFreeListening useWakeWord b e).1 := by
  unfold TryStartHandsFreeListening toggleCount at htoggle
  unfold TryStartHandsFreeListening Stamped
  simp only [hen, hstate, HANDS_FREE_AUTO_LISTEN, one_ne_zero, if_false, Bool.not_true,
    Bool.false_eq_true] at htoggle ⊢
  split_ifs at htoggle ⊢ <;> first
    | (exfalso; simp at htoggle; done)
    | (refine ⟨?_, ?_, ?_, ?_, ?_⟩ <;> dsimp only <;> rfl)

theorem reopen_tick (useWakeWord : Bool) (b : Esp32c3Inmp441Board) (e : AppEnv)
    (hen : b.hands_free_enabled_ = true) (hbtn : b.boot_button_pressed_ = false)
    (haudio : e.audio_idle = true) (hvoice : e.voice_detected = false)
    (hstate : e.device_state = kDeviceStateIdle)
    (hgate : b.wait_for_wake_word_ = false)
    (hlast : validTime b.last_hands_free_trigger_us_) (hnow : validTime e.now_us)
    (helapsed : b.last_hands_free_trigger_us_ + HANDS_FREE_AUTO_LISTEN_RETRY_MS * 1000
      ≤ e.now_us) :
    TryStartHandsFreeListening useWakeWord b e =
      ({ b with last_hands_free_trigger_us_ := e.now_us,
                last_voice_activity_us_ := e.now_us }, [Cmd.ToggleChatState]) := by
  have hsub : ¬ subInt64 e.now_us b.last_hands_free_trigger_us_ < 3000000 := by
    unfold validTime at hlast hnow
    simp only [HANDS_FREE_AUTO_LISTEN_RETRY_MS] at helapsed
    unfold subInt64 wrapInt64; omega
  simp [TryStartHandsFreeListening, HANDS_FREE_AUTO_LISTEN, hen, hbtn, haudio, hvoice,
    hstate, hgate, msToUs_retry, hsub]

theorem gated_idle_tick (useWakeWord : Bool) (b : Esp32c3Inmp441Board) (e : AppEnv)
    (hen : b.hands_free_enabled_ = true)
    (hstate : e.device_state = kDeviceStateIdle)
    (hgate : b.wait_for_wake_word_ = true) :
    toggleCount (TryStartHandsFreeListening useWakeWord b e).2 = 0 := by
  unfold TryStartHandsFreeListening toggleCount
  simp only [hen, hstate, hgate, HANDS_FREE_AUTO_LISTEN, one_ne_zero, if_false,
    Bool.not_true, Bool.false_eq_true]
  split_ifs <;> first | rfl | simp_all

/-- C3: hands-free enabled, a first tick `e0`, then any sequence `evs` of ticks
and push-to-talk presses (no `ToggleHandsFreeMode`) whose tick times never
decrease.
(1) If `e0` finds the session `Listening` and closes the channel (it requests a
toggle, which the enabled controller only does there on idle timeout), no later
tick at a time before `e0.now_us + HANDS_FREE_AUTO_LISTEN_RETRY_MS * 1000`
requests a toggle, in `Idle` or in any other session state.
(2) If `e0` finds the session `Idle` with the button not held, audio idle, no
voice, the gate clear and at least the retry cooldown elapsed since
`last_hands_free_trigger_us_`, it requests exactly one toggle and stamps
`last_hands_free_trigger_us_` (and `last_voice_activity_us_`) with its time, and
no later tick inside the new cooldown requests a toggle.
(3) If `e0` finds the session `Idle` with the gate set, it requests none. -/
theorem reopen_cooldown (useWakeWord : Bool) (b : Esp32c3Inmp441Board) (e0 : AppEnv)
    (evs : List BoardEvent)
    (hen : b.hands_free_enabled_ = true)
    (hmono : nonDecreasing e0.now_us (tickTimes evs) = true) :
    (e0.device_state = kDeviceStateListening →
      toggleCount (TryStartHandsFreeListening useWakeWord b e0).2 = 1 →
      ∀ (e : AppEnv) (cmds : List Cmd),
        (BoardEvent.tick e, cmds) ∈
          runEvents useWakeWord (TryStartHandsFreeListening useWakeWord b e0).1 evs →
        e.now_us < e0.now_us + HANDS_FREE_AUTO_LISTEN_RETRY_MS * 1000 →
        toggleCount cmds = 0) ∧
    (e0.device_state = kDeviceStateIdle → b.boot_button_pressed_ = false →
      e0.audio_idle = true → e0.voice_detected = false →
      b.wait_for_wake_word_ = false →
      validTime b.last_hands_free_trigger_us_ → validTime e0.now_us →
      b.last_hands_free_trigger_us_ + HANDS_FREE_AUTO_LISTEN_RETRY_MS * 1000 ≤ e0.now_us →
      toggleCount (TryStartHandsFreeListening useWakeWord b e0).2 = 1 ∧
      (TryStartHandsFreeListening useWakeWord b e0).1.last_hands_free_trigger_us_
        = e0.now_us ∧
      (TryStartHandsFreeListening useWakeWord b e0).1.last_voice_activity_us_
        = e0.now_us ∧
      ∀ (e : AppEnv) (cmds : List Cmd),
        (BoardEvent.tick e, cmds) ∈
          runEvents useWakeWord (TryStartHandsFreeListening useWakeWord b e0).1 evs →
        e.now_us < e0.now_us + HANDS_FREE_AUTO_LISTEN_RETRY_MS * 1000 →
        toggleCount cmds = 0) ∧
    (e0.device_state = kDeviceStateIdle → b.wait_for_wake_word_ = true →
      toggleCount (TryStartHandsFreeListening useWakeWord b e0).2 = 0) := by
  have hretry : HANDS_FREE_AUTO_LISTEN_RETRY_MS * 1000 = 3000000 := by
    simp [HANDS_FREE_AUTO_LISTEN_RETRY_MS]
  refine ⟨?_, ?_, ?_⟩
  · intro hstate htoggle e cmds hmem hlt
    rw [hretry] at hlt
    exact events_in_cooldown_no_toggle useWakeWord e0.now_us evs e0.now_us _
      (closing_tick_stamps useWakeWord b e0 hen hstate htoggle) hmono e cmds hmem hlt
  · intro hstate hbtn haudio hvoice hgate hlast hnow helapsed
    have heq := reopen_tick useWakeWord b e0 hen hbtn haudio hvoice hstate hgate hlast hnow
      helapsed
    refine ⟨by rw [heq]; rfl, by rw [heq], by rw [heq], ?_⟩
    intro e cmds hmem hlt
    rw [hretry] at hlt
    refine events_in_cooldown_no_toggle useWakeWord e0.now_us evs e0.now_us _ ?_ hmono
      e cmds hmem hlt
    rw [heq]
    exact ⟨hen, le_refl _, le_refl _, le_refl _, le_refl _⟩
  · intro hstate hgate
    exact gated_idle_tick useWakeWord b e0 hen hstate hgate

/-- Witness for C3: an idle-timeout close at 25 s followed by `Idle` ticks at
25.5 s and 27.9 s (with a button press in between) requests no reopen; and a
reopen at 4 s after a trigger at 1 s is followed by a silent tick at 4.5 s. -/
theorem reopen_cooldown_witness :
    (∀ (e : AppEnv) (cmds : List Cmd),
      (BoardEvent.tick e, cmds) ∈
        runEvents true
          (TryStartHandsFreeListening true {}
            ⟨kDeviceStateListening, true, false, 25000000⟩).1
          [.tick ⟨kDeviceStateIdle, true, false, 25500000⟩, .pressDown, .pressUp,
           .tick ⟨kDeviceStateIdle, true, false, 27900000⟩] →
      e.now_us < 25000000 + HANDS_FREE_AUTO_LISTEN_RETRY_MS * 1000 →
      toggleCount cmds = 0) ∧
    toggleCount (TryStartHandsFreeListening false { last_hands_free_trigger_us_ := 1000000 }
      ⟨kDeviceStateIdle, true, false, 4000000⟩).2 = 1 :=
  ⟨(reopen_cooldown true {} ⟨kDeviceStateListening, true, false, 25000000⟩
      [.tick ⟨kDeviceStateIdle, true, false, 25500000⟩, .pressDown, .pressUp,
       .tick ⟨kDeviceStateIdle, true, false, 27900000⟩] rfl rfl).1 rfl (by decide),
   ((reopen_cooldown false { last_hands_free_trigger_us_ := 1000000 }
      ⟨kDeviceStateIdle, true, false, 4000000⟩
      [.tick ⟨kDeviceStateIdle, true, false, 4500000⟩] rfl rfl).2.1
      rfl rfl rfl rfl rfl (by decide) (by decide) (by decide)).1⟩

end HandsFree

namespace VoiceActivity

/-! ### The peak loop computes the spec's peak -/

theorem peak_update_eq (peak v : Int) :
    (if (if v < 0 then -v else v) > peak then (if v < 0 then -v else v) else peak)
      = max peak |v| := by
  rcases lt_or_le v 0 with h | h
  · rw [abs_of_neg h, if_pos h, max_def]
    split_ifs <;> omega
  · rw [abs_of_nonneg h, if_neg (not_lt.mpr h), max_def]
    split_ifs <;> omega

theorem peakLoop_mono (data : List Int) :
    ∀ (fuel i : Nat) (peak : Int), data.length - i ≤ fuel →
      peakLoop data 1 fuel i peak
        = (data.drop i).foldl (fun m v => max m |v|) peak := by
  intro fuel
  induction fuel with
  | zero =>
    intro i peak h
    have hi : data.length ≤ i := by omega
    simp [peakLoop, List.drop_eq_nil_of_le hi]
  | succ fuel ih =>
    intro i peak h
    unfold peakLoop
    by_cases hi : i < data.length
    · rw [if_pos hi, List.drop_eq_getElem_cons hi, List.foldl_cons,
        List.getD_eq_getElem data 0 hi]
      simp only [peak_update_eq]
      exact ih (i + 1) _ (by omega)
    · rw [if_neg hi, List.drop_eq_nil_of_le (by omega)]
      rfl

theorem peakLoop_stereo (data : List Int) :
    ∀ (fuel i : Nat) (peak : Int), data.length - i ≤ fuel →
      peakLoop data 2 fuel i peak
        = (evenIndexed (data.drop i)).foldl (fun m v => max m |v|) peak := by
  intro fuel
  induction fuel with
  | zero =>
    intro i peak h
    have hi : data.length ≤ i := by omega
    simp [peakLoop, List.drop_eq_nil_of_le hi, evenIndexed]
  | succ fuel ih =>
    intro i peak h
    unfold peakLoop
    by_cases hi : i < data.length
    · rw [if_pos hi, List.getD_eq_getElem data 0 hi]
      simp only [peak_update_eq]
      rw [ih (i + 2) _ (by omega), List.drop_eq_getElem_cons hi]
      by_cases hi1 : i + 1 < data.length
      · rw [List.drop_eq_getElem_cons hi1]
        simp [evenIndexed]
      · rw [List.drop_eq_nil_of_le (by omega : data.length ≤ i + 1),
          List.drop_eq_nil_of_le (by omega : data.length ≤ i + 2)]
        simp [evenIndexed]
    · rw [if_neg hi, List.drop_eq_nil_of_le (by omega)]
      rfl

/-- The peak the loop of `Feed` computes is the spec's `max |sample|` over the
designated channel. -/
theorem framePeak_eq_specPeak (codec : AudioCodec) (data : List Int) :
    framePeak codec data = specPeak codec.input_channels data := by
  unfold framePeak specPeak designatedSamples
  by_cases h : codec.input_channels = 2
  · simp only [h, if_true]
    simpa using peakLoop_stereo data data.length 0 0 (by omega)
  · simp only [h, if_false]
    simpa using peakLoop_mono data data.length 0 0 (by omega)

/-! ### Stop -/

/-- C6: with an activity sink registered, `Stop` on a speaking classifier
delivers exactly one `false` edge (and nothing else) and `Stop` on a
non-speaking classifier delivers nothing; afterwards the classifier is not
running, not speaking, and both counters are 0. No assumption is made on the
counters before the call. -/
theorem stop_terminates_speaking (p : NoAudioProcessor)
    (hvad : p.vad_state_change_callback_ = true) :
    (p.is_speaking_ = true → (Stop p).2 = [SinkEvent.vad false]) ∧
    (p.is_speaking_ = false → (Stop p).2 = []) ∧
    (Stop p).1.is_running_ = false ∧ (Stop p).1.is_speaking_ = false ∧
    (Stop p).1.speech_frames_ = 0 ∧ (Stop p).1.silent_frames_ = 0 := by
  refine ⟨?_, ?_, rfl, rfl, rfl, rfl⟩
  · intro h; simp [Stop, h, hvad]
  · intro h; simp [Stop, h]

/-- Witness for C6: speaking after two loud frames only, no silent frame fed. -/
theorem stop_terminates_speaking_witness :
    (Stop { codec_ := some ⟨1, 24000⟩, frame_samples_ := 960, is_running_ := true,
            is_speaking_ := true, speech_frames_ := 2, silent_frames_ := 0,
            output_callback_ := true, vad_state_change_callback_ := true }).2
      = [SinkEvent.vad false] :=
  (stop_terminates_speaking
    { codec_ := some ⟨1, 24000⟩, frame_samples_ := 960, is_running_ := true,
      is_speaking_ := true, speech_frames_ := 2, silent_frames_ := 0,
      output_callback_ := true, vad_state_change_callback_ := true } rfl).1 rfl

/-! ### Forwarding -/

theorem outputFrames_append (a b : List SinkEvent) :
    outputFrames (a ++ b) = outputFrames a ++ outputFrames b := by
  induction a with
  | nil => rfl
  | cons x rest ih => cases x <;> simp [outputFrames, ih]

theorem vadEdges_append (a b : List SinkEvent) :
    vadEdges (a ++ b) = vadEdges a ++ vadEdges b := by
  induction a with
  | nil => rfl
  | cons x rest ih => cases x <;> simp [vadEdges, ih]

theorem monoData_length (data : List Int) : (monoData data).length = data.length / 2 := by
  simp [monoData]

theorem monoData_getElem? (data : List Int) (i : Nat) (hi : i < data.length / 2) :
    (monoData data)[i]? = data[2 * i]? := by
  have h2 : 2 * i < data.length := by omega
  simp [monoData, List.getElem?_range hi, List.getD_eq_getElem data 0 h2,
    List.getElem?_eq_getElem h2]

/-- C7: a frame fed to a running classifier with a data sink (activity sink
registered or not) reaches the data sink exactly once. With 2 input channels
the delivered frame has length `data.length / 2` and its `i`-th sample is the
input sample at index `2 * i`; with 1 input channel (any count other than 2)
the delivered frame is the input frame. -/
theorem feed_forwards_designated_channel (p : NoAudioProcessor) (codec : AudioCodec)
    (data : List Int) (hrun : p.is_running_ = true) (hout : p.output_callback_ = true)
    (hcodec : p.codec_ = some codec) :
    ∃ p1 evs, Feed p data = some (p1, evs) ∧
      (codec.input_channels = 2 →
        ∃ fwd, outputFrames evs = [fwd] ∧ fwd.length = data.length / 2 ∧
          ∀ i, i < fwd.length → fwd[i]? = data[2 * i]?) ∧
      (codec.input_channels ≠ 2 → outputFrames evs = [data]) := by
  have hev : ∀ (q : NoAudioProcessor) (ev : List SinkEvent) (f : List Int),
      (ev = [] ∨ ev = [SinkEvent.vad true] ∨ ev = [SinkEvent.vad false]) →
      outputFrames (ev ++ [SinkEvent.output f]) = [f] := by
    intro q ev f h
    rcases h with h | h | h <;> subst h <;> rfl
  unfold Feed
  simp only [hrun, hout, hcodec, Bool.not_true, Bool.or_self, Bool.false_eq_true, if_false]
  by_cases hch : codec.input_channels = 2
  · simp only [hch, if_true]
    refine ⟨_, _, rfl, ?_, fun h => absurd rfl h⟩
    intro _
    refine ⟨monoData data, ?_, monoData_length data, ?_⟩
    · apply hev p
      split_ifs <;> simp
    · intro i hi
      rw [monoData_length] at hi
      exact monoData_getElem? data i hi
  · simp only [hch, if_false]
    refine ⟨_, _, rfl, fun h => h.elim, ?_⟩
    intro _
    apply hev p
    split_ifs <;> simp

/-- Witness for C7: the stereo frame `[L0, R0, L1, R1, L2]` with no activity
sink registered is forwarded as a 2-sample frame starting `L0, L1`. -/
theorem feed_forwards_designated_channel_witness :
    ∃ p1 evs,
      Feed { codec_ := some ⟨2, 24000⟩, frame_samples_ := 960, is_running_ := true,
             is_speaking_ := false, speech_frames_ := 0, silent_frames_ := 0,
             output_callback_ := true, vad_state_change_callback_ := false }
        [10, -20, 30, -40, 50] = some (p1, evs) ∧
      ∃ fwd, outputFrames evs = [fwd] ∧ fwd.length = 2 ∧
        fwd[0]? = some 10 ∧ fwd[1]? = some 30 :=
  match feed_forwards_designated_channel
    { codec_ := some ⟨2, 24000⟩, frame_samples_ := 960, is_running_ := true,
      is_speaking_ := false, speech_frames_ := 0, silent_frames_ := 0,
      output_callback_ := true, vad_state_change_callback_ := false }
    ⟨2, 24000⟩ [10, -20, 30, -40, 50] rfl rfl rfl with
  | ⟨p1, evs, hfeed, hstereo, _⟩ =>
    match hstereo rfl with
    | ⟨fwd, hout, hlen, hsample⟩ =>
      ⟨p1, evs, hfeed, fwd, hout, hlen,
        hsample 0 (by rw [hlen]; decide), hsample 1 (by rw [hlen]; decide)⟩

/-! ### Threshold policy -/

/-- C8, as stated, fails: a running classifier with a data sink but no
activity sink is fed the mono frame `[1500]`, whose peak 1500 is at least
1200, and `speech_frames_` stays 0 instead of becoming 1. -/
theorem feed_without_activity_sink_keeps_counters :
    1200 ≤ specPeak 1 [1500] ∧
    ∃ p1 evs,
      Feed { codec_ := some ⟨1, 24000⟩, frame_samples_ := 960, is_running_ := true,
             is_speaking_ := false, speech_frames_ := 0, silent_frames_ := 0,
             output_callback_ := true, vad_state_change_callback_ := false }
        [1500] = some (p1, evs) ∧
      p1.speech_frames_ = 0 ∧ p1.speech_frames_ ≠ 0 + 1 := by
  refine ⟨by decide, _, _, rfl, by decide, by decide⟩

/-- C8, amended: for every `Feed` on a running classifier with a data sink and
a codec, with `peak` the spec's `max |sample|` over the designated channel: when
an activity sink is registered, `peak ≥ 1200` increments `speech_frames_` and
zeroes `silent_frames_`, `peak ≤ 700` increments `silent_frames_` and zeroes
`speech_frames_`, and `700 < peak < 1200` leaves both unchanged; when no
activity sink is registered both counters are unchanged whatever the peak. -/
theorem feed_threshold_policy (p : NoAudioProcessor) (codec : AudioCodec)
    (data : List Int) (hrun : p.is_running_ = true) (hout : p.output_callback_ = true)
    (hcodec : p.codec_ = some codec) :
    ∃ p1 evs, Feed p data = some (p1, evs) ∧
      (p.vad_state_change_callback_ = true →
        (kSpeechPeakThreshold ≤ specPeak codec.input_channels data →
          p1.speech_frames_ = p.speech_frames_ + 1 ∧ p1.silent_frames_ = 0) ∧
        (specPeak codec.input_channels data ≤ kSilencePeakThreshold →
          p1.silent_frames_ = p.silent_frames_ + 1 ∧ p1.speech_frames_ = 0) ∧
        (kSilencePeakThreshold < specPeak codec.input_channels data →
          specPeak codec.input_channels data < kSpeechPeakThreshold →
          p1.speech_frames_ = p.speech_frames_ ∧ p1.silent_frames_ = p.silent_frames_)) ∧
      (p.vad_state_change_callback_ = false →
        p1.speech_frames_ = p.speech_frames_ ∧ p1.silent_frames_ = p.silent_frames_) := by
  rw [← framePeak_eq_specPeak]
  unfold Feed
  simp only [hrun, hout, hcodec, Bool.not_true, Bool.or_self, Bool.false_eq_true, if_false]
  simp only [kSpeechPeakThreshold, kSilencePeakThreshold]
  cases hv : p.vad_state_change_callback_
  · simp only [Bool.false_eq_true, if_false]
    split_ifs <;> exact ⟨_, _, rfl, fun h => by simp at h, fun _ => ⟨rfl, rfl⟩⟩
  · simp only [if_true]
    split_ifs <;>
      refine ⟨_, _, rfl, fun _ => ⟨fun h1 => ?_, fun h2 => ?_, fun h3 h4 => ?_⟩,
        fun h => by simp at h⟩ <;>
      first
        | exact ⟨rfl, rfl⟩
        | (exfalso; omega)

/-- Witness for C8 amended: activity sink registered, mono frame `[-1500, 3]`. -/
theorem feed_threshold_policy_witness :
    ∃ p1 evs,
      Feed { codec_ := some ⟨1, 24000⟩, frame_samples_ := 960, is_running_ := true,
             is_speaking_ := false, speech_frames_ := 0, silent_frames_ := 4,
             output_callback_ := true, vad_state_change_callback_ := true }
        [-1500, 3] = some (p1, evs) ∧
      p1.speech_frames_ = 0 + 1 ∧ p1.silent_frames_ = 0 :=
  match feed_threshold_policy
    { codec_ := some ⟨1, 24000⟩, frame_samples_ := 960, is_running_ := true,
      is_speaking_ := false, speech_frames_ := 0, silent_frames_ := 4,
      output_callback_ := true, vad_state_change_callback_ := true }
    ⟨1, 24000⟩ [-1500, 3] rfl rfl rfl with
  | ⟨p1, evs, hfeed, hpol, _⟩ => ⟨p1, evs, hfeed, (hpol rfl).1 (by decide)⟩

/-! ### Required frame size -/

/-- C9, as stated, fails: after `Initialize` with a codec whose input sample
rate is this board's 24000 and a 60 ms frame, `GetFeedSize` is 960, not
`60 * 24000 / 1000 = 1440`. -/
theorem feed_size_ignores_codec_rate :
    GetFeedSize (Initialize (NoAudioProcessor.initial true true)
      (some ⟨1, HandsFree.AUDIO_INPUT_SAMPLE_RATE⟩) 60) = 960 ∧
    GetFeedSize (Initialize (NoAudioProcessor.initial true true)
      (some ⟨1, HandsFree.AUDIO_INPUT_SAMPLE_RATE⟩) 60)
      ≠ 60 * HandsFree.AUDIO_INPUT_SAMPLE_RATE / 1000 := by
  constructor <;> decide

/-- C9, amended: `GetFeedSize` is 0 while `codec_` is null, and after
`Initialize(codec, frame_duration_ms)` with a codec and
`0 ≤ frame_duration_ms ≤ 134217` (so that the `int` product does not
overflow) it is `frame_duration_ms * 16000 / 1000`, at the fixed rate 16000
whatever the codec's input sample rate is; that is the spec's
`frame_duration_ms * sample_rate / 1000` when the codec's rate is 16000. -/
theorem feed_size_fixed_rate (p : NoAudioProcessor) (codec : AudioCodec)
    (frame_duration_ms : Int) (h0 : 0 ≤ frame_duration_ms)
    (h1 : frame_duration_ms ≤ 134217) :
    (p.codec_ = none → GetFeedSize p = 0) ∧
    GetFeedSize (Initialize p (some codec) frame_duration_ms)
      = frame_duration_ms * 16000 / 1000 ∧
    (codec.input_sample_rate = 16000 →
      GetFeedSize (Initialize p (some codec) frame_duration_ms)
        = frame_duration_ms * codec.input_sample_rate / 1000) := by
  have hw : wrapInt32 (frame_duration_ms * 16000) = frame_duration_ms * 16000 := by
    unfold wrapInt32; omega
  have hmain : GetFeedSize (Initialize p (some codec) frame_duration_ms)
      = frame_duration_ms * 16000 / 1000 := by
    simp only [GetFeedSize, Initialize, hw, toSizeT]
    rw [Int.tdiv_eq_ediv (by omega) (by omega)]
    omega
  refine ⟨?_, hmain, ?_⟩
  · intro h
    simp [GetFeedSize, h]
  · intro h
    rw [hmain, h]

/-- Witness for C9 amended: a 60 ms frame on this board's 24000 Hz codec. -/
theorem feed_size_fixed_rate_witness :
    GetFeedSize (Initialize (NoAudioProcessor.initial true true)
      (some ⟨1, HandsFree.AUDIO_INPUT_SAMPLE_RATE⟩) 60) = 60 * 16000 / 1000 :=
  (feed_size_fixed_rate (NoAudioProcessor.initial true true)
    ⟨1, HandsFree.AUDIO_INPUT_SAMPLE_RATE⟩ 60 (by decide) (by decide)).2.1

/-! ### Edges of a speech burst followed by silence -/

theorem runCalls_append (a b : List Call) :
    ∀ (p p1 p2 : NoAudioProcessor) (e1 e2 : List (List SinkEvent)),
      runCalls p a = some (p1, e1) → runCalls p1 b = some (p2, e2) →
      runCalls p (a ++ b) = some (p2, e1 ++ e2) := by
  induction a with
  | nil =>
    intro p p1 p2 e1 e2 h1 h2
    simp only [runCalls, Option.some.injEq, Prod.mk.injEq] at h1
    obtain ⟨hp, he⟩ := h1
    subst hp; subst he
    simpa using h2
  | cons c rest ih =>
    intro p p1 p2 e1 e2 h1 h2
    rw [List.cons_append]
    simp only [runCalls] at h1 ⊢
    cases hstep : stepCall p c with
    | none => simp [hstep] at h1
    | some r =>
      obtain ⟨q, ev⟩ := r
      simp only [hstep] at h1 ⊢
      cases hrest : runCalls q rest with
      | none => simp [hrest] at h1
      | some r2 =>
        obtain ⟨q2, evs⟩ := r2
        simp only [hrest, Option.some.injEq, Prod.mk.injEq] at h1
        obtain ⟨hp, he⟩ := h1
        subst hp; subst he
        have hih := ih q q2 p2 evs e2 hrest h2
        show (match runCalls q (rest ++ b) with
          | none => none
          | some (p2, evs) => some (p2, ev :: evs)) = _
        rw [hih]
        rfl

theorem feed_loud_step (p : NoAudioProcessor) (codec : AudioCodec) (f : List Int)
    (speaking : Bool) (sp si : Int)
    (hout : p.output_callback_ = true) (hvad : p.vad_state_change_callback_ = true)
    (hcodec : p.codec_ = some codec)
    (hloud : 1200 ≤ specPeak codec.input_channels f) :
    ∃ evs, Feed (runningWith p speaking sp si) f
        = some (runningWith p (speaking || decide (2 ≤ sp + 1)) (sp + 1) 0, evs) ∧
      vadEdges evs = if speaking = false ∧ 2 ≤ sp + 1 then [true] else [] := by
  rw [← framePeak_eq_specPeak] at hloud
  unfold Feed runningWith
  simp only [hout, hvad, hcodec, Bool.not_true, Bool.or_self, Bool.false_eq_true, if_false,
    if_true, kSpeechPeakThreshold, kSilencePeakThreshold, kSpeechFramesToTrigger,
    kSilenceFramesToTrigger, ge_iff_le, hloud]
  cases speaking <;> by_cases h2 : 2 ≤ sp + 1 <;>
    simp [h2, vadEdges_append] <;> split_ifs <;> simp [vadEdges]

theorem feed_quiet_step (p : NoAudioProcessor) (codec : AudioCodec) (f : List Int)
    (speaking : Bool) (sp si : Int)
    (hout : p.output_callback_ = true) (hvad : p.vad_state_change_callback_ = true)
    (hcodec : p.codec_ = some codec)
    (hquiet : specPeak codec.input_channels f ≤ 700) :
    ∃ evs, Feed (runningWith p speaking sp si) f
        = some (runningWith p (speaking && !decide (10 ≤ si + 1)) 0 (si + 1), evs) ∧
      vadEdges evs = if speaking = true ∧ 10 ≤ si + 1 then [false] else [] := by
  rw [← framePeak_eq_specPeak] at hquiet
  have hnot : ¬ 1200 ≤ framePeak codec f := by omega
  unfold Feed runningWith
  simp only [hout, hvad, hcodec, Bool.not_true, Bool.or_self, Bool.false_eq_true, if_false,
    if_true, kSpeechPeakThreshold, kSilencePeakThreshold, kSpeechFramesToTrigger,
    kSilenceFramesToTrigger, ge_iff_le, hquiet, hnot]
  cases speaking <;> by_cases h2 : 10 ≤ si + 1 <;>
    simp [h2, vadEdges_append] <;> split_ifs <;> simp [vadEdges]

theorem runCalls_cons (p p1 p2 : NoAudioProcessor) (c : Call) (rest : List Call)
    (ev : List SinkEvent) (evs : List (List SinkEvent))
    (h1 : stepCall p c = some (p1, ev)) (h2 : runCalls p1 rest = some (p2, evs)) :
    runCalls p (c :: rest) = some (p2, ev :: evs) := by
  simp [runCalls, h1, h2]

theorem run_loud_speaking (p : NoAudioProcessor) (codec : AudioCodec)
    (hout : p.output_callback_ = true) (hvad : p.vad_state_change_callback_ = true)
    (hcodec : p.codec_ = some codec) (frames : List (List Int)) :
    (∀ f ∈ frames, 1200 ≤ specPeak codec.input_channels f) →
    ∀ sp : Int, ∃ sp1 evs,
      runCalls (runningWith p true sp 0) (frames.map Call.Feed)
        = some (runningWith p true sp1 0, evs) ∧
      evs.map vadEdges = List.replicate frames.length [] := by
  induction frames with
  | nil => intro _ sp; exact ⟨sp, [], rfl, rfl⟩
  | cons f rest ih =>
    intro hall sp
    obtain ⟨ev, hfeed, hedge⟩ := feed_loud_step p codec f true sp 0 hout hvad hcodec
      (hall f (List.mem_cons_self _ _))
    obtain ⟨sp1, evs, hrun, htrace⟩ := ih (fun g hg => hall g (List.mem_cons_of_mem _ hg))
      (sp + 1)
    refine ⟨sp1, ev :: evs, ?_, ?_⟩
    · exact runCalls_cons _ _ _ _ _ _ _ (by simpa [stepCall] using hfeed) hrun
    · simp [htrace, hedge, List.replicate_succ]

theorem run_quiet_speaking (p : NoAudioProcessor) (codec : AudioCodec)
    (hout : p.output_callback_ = true) (hvad : p.vad_state_change_callback_ = true)
    (hcodec : p.codec_ = some codec) (frames : List (List Int)) :
    (∀ f ∈ frames, specPeak codec.input_channels f ≤ 700) →
    ∀ sp si : Int, si + frames.length ≤ 9 → ∃ sp1 evs,
      runCalls (runningWith p true sp si) (frames.map Call.Feed)
        = some (runningWith p true sp1 (si + frames.length), evs) ∧
      evs.map vadEdges = List.replicate frames.length [] := by
  induction frames with
  | nil => intro _ sp si _; exact ⟨sp, [], by simp [runCalls], rfl⟩
  | cons f rest ih =>
    intro hall sp si hlen
    simp only [List.length_cons, Nat.cast_add, Nat.cast_one] at hlen
    obtain ⟨ev, hfeed, hedge⟩ := feed_quiet_step p codec f true sp si hout hvad hcodec
      (hall f (List.mem_cons_self _ _))
    have hno : ¬ 10 ≤ si + 1 := by omega
    simp only [hno, decide_False, Bool.not_false, Bool.and_true, and_false, if_false]
      at hfeed hedge
    obtain ⟨sp1, evs, hrun, htrace⟩ := ih (fun g hg => hall g (List.mem_cons_of_mem _ hg))
      0 (si + 1) (by omega)
    refine ⟨sp1, ev :: evs, ?_, ?_⟩
    · have hrun2 := runCalls_cons (runningWith p true sp si) _ _ (Call.Feed f)
        (rest.map Call.Feed) ev evs (by simpa [stepCall] using hfeed) hrun
      simp only [List.map_cons, List.length_cons, Nat.cast_add, Nat.cast_one]
      rw [hrun2]
      congr 3
      omega
    · simp [htrace, hedge, List.replicate_succ]

theorem run_quiet_not_speaking (p : NoAudioProcessor) (codec : AudioCodec)
    (hout : p.output_callback_ = true) (hvad : p.vad_state_change_callback_ = true)
    (hcodec : p.codec_ = some codec) (frames : List (List Int)) :
    (∀ f ∈ frames, specPeak codec.input_channels f ≤ 700) →
    ∀ sp si : Int, ∃ sp1 si1 evs,
      runCalls (runningWith p false sp si) (frames.map Call.Feed)
        = some (runningWith p false sp1 si1, evs) ∧
      evs.map vadEdges = List.replicate frames.length [] := by
  induction frames with
  | nil => intro _ sp si; exact ⟨sp, si, [], rfl, rfl⟩
  | cons f rest ih =>
    intro hall sp si
    obtain ⟨ev, hfeed, hedge⟩ := feed_quiet_step p codec f false sp si hout hvad hcodec
      (hall f (List.mem_cons_self _ _))
    simp only [Bool.false_and, Bool.false_eq_true, false_and, if_false] at hfeed hedge
    obtain ⟨sp1, si1, evs, hrun, htrace⟩ :=
      ih (fun g hg => hall g (List.mem_cons_of_mem _ hg)) 0 (si + 1)
    refine ⟨sp1, si1, ev :: evs, ?_, ?_⟩
    · exact runCalls_cons _ _ _ _ _ _ _ (by simpa [stepCall] using hfeed) hrun
    · simp [htrace, hedge, List.replicate_succ]

theorem vadEdges_flatten (l : List (List SinkEvent)) :
    vadEdges l.flatten = (l.map vadEdges).flatten := by
  induction l with
  | nil => rfl
  | cons x rest ih => simp [vadEdges_append, ih]

theorem run_quiet_phase (p : NoAudioProcessor) (codec : AudioCodec)
    (hout : p.output_callback_ = true) (hvad : p.vad_state_change_callback_ = true)
    (hcodec : p.codec_ = some codec) (quiet : List (List Int))
    (hquiet : ∀ f ∈ quiet, specPeak codec.input_channels f ≤ 700) (sp : Int) :
    ∃ p1 evs,
      runCalls (runningWith p true sp 0) (quiet.map Call.Feed) = some (p1, evs) ∧
      evs.map vadEdges =
        if quiet.length < 10 then List.replicate quiet.length []
        else List.replicate 9 [] ++ [false] :: List.replicate (quiet.length - 10) [] := by
  by_cases hlen : quiet.length < 10
  · obtain ⟨sp1, evs, hrun, htrace⟩ :=
      run_quiet_speaking p codec hout hvad hcodec quiet hquiet sp 0 (by omega)
    exact ⟨_, evs, hrun, by rw [if_pos hlen]; exact htrace⟩
  · have h9 : 9 < quiet.length := by omega
    have hsplit : quiet = quiet.take 9 ++ quiet[9] :: quiet.drop 10 := by
      rw [← List.drop_eq_getElem_cons h9, List.take_append_drop]
    have htake : (quiet.take 9).length = 9 := by
      rw [List.length_take]; omega
    have hdrop : (quiet.drop 10).length = quiet.length - 10 := List.length_drop 10 quiet
    obtain ⟨sp1, evs1, hrun1, htrace1⟩ :=
      run_quiet_speaking p codec hout hvad hcodec (quiet.take 9)
        (fun f hf => hquiet f (List.mem_of_mem_take hf)) sp 0 (by rw [htake]; decide)
    rw [htake] at hrun1 htrace1
    obtain ⟨ev, hfeed, hedge⟩ := feed_quiet_step p codec quiet[9] true sp1 (0 + (9 : Nat))
      hout hvad hcodec (hquiet _ (List.getElem_mem _))
    have hten : (10 : Int) ≤ 0 + ((9 : Nat) : Int) + 1 := by decide
    simp only [hten, decide_True, Bool.not_true, Bool.and_false, and_self, if_true]
      at hfeed hedge
    obtain ⟨sp2, si2, evs2, hrun2, htrace2⟩ :=
      run_quiet_not_speaking p codec hout hvad hcodec (quiet.drop 10)
        (fun f hf => hquiet f (List.mem_of_mem_drop hf)) 0 (0 + ((9 : Nat) : Int) + 1)
    have hrun3 := runCalls_cons (runningWith p true sp1 (0 + ((9 : Nat) : Int))) _ _
      (Call.Feed quiet[9]) ((quiet.drop 10).map Call.Feed) ev evs2
      (by simpa [stepCall] using hfeed) hrun2
    have hall := runCalls_append _ _ _ _ _ _ _ hrun1 hrun3
    have hmap : quiet.map Call.Feed = (quiet.take 9).map Call.Feed ++
        Call.Feed quiet[9] :: (quiet.drop 10).map Call.Feed := by
      conv_lhs => rw [hsplit]
      rw [List.map_append, List.map_cons]
    refine ⟨runningWith p false sp2 si2, evs1 ++ ev :: evs2, ?_, ?_⟩
    · rw [hmap]
      exact hall
    · rw [if_neg hlen, List.map_append, List.map_cons, htrace1, htrace2, hedge, hdrop]

/-- C5: from a cold start (`Start`, data sink and activity sink registered, a
codec set), `n ≥ 2` frames with peak at least 1200 followed by `m` frames with
peak at most 700 all succeed; the only call that produces a `true` edge is the
2nd loud frame, the only call that produces a `false` edge is the 10th silent
frame, so the edges delivered are `[true]` when `m < 10` and `[true, false]`
when `m ≥ 10`. -/
theorem speech_then_silence_edges (p : NoAudioProcessor) (codec : AudioCodec)
    (loud quiet : List (List Int))
    (hout : p.output_callback_ = true) (hvad : p.vad_state_change_callback_ = true)
    (hcodec : p.codec_ = some codec)
    (hloud : ∀ f ∈ loud, 1200 ≤ specPeak codec.input_channels f)
    (hquiet : ∀ f ∈ quiet, specPeak codec.input_channels f ≤ 700)
    (hn : 2 ≤ loud.length) :
    ∃ p1 evs,
      runCalls p (Call.Start :: (loud ++ quiet).map Call.Feed) = some (p1, evs) ∧
      evs.map vadEdges =
        ([] :: [] :: [true] :: List.replicate (loud.length - 2) []) ++
          (if quiet.length < 10 then List.replicate quiet.length []
           else List.replicate 9 [] ++ [false] :: List.replicate (quiet.length - 10) []) ∧
      vadEdges evs.flatten = if quiet.length < 10 then [true] else [true, false] := by
  match loud, hloud, hn with
  | f1 :: f2 :: rest, hloud, _ =>
    obtain ⟨ev1, hfeed1, hedge1⟩ := feed_loud_step p codec f1 false 0 0 hout hvad hcodec
      (hloud f1 (by simp))
    obtain ⟨ev2, hfeed2, hedge2⟩ := feed_loud_step p codec f2 false (0 + 1) 0 hout hvad
      hcodec (hloud f2 (by simp))
    simp only [zero_add, show ¬ (2 : Int) ≤ 1 by decide, decide_False, Bool.or_false,
      and_false, if_false] at hfeed1 hedge1
    simp only [zero_add, show (2 : Int) ≤ 1 + 1 by decide, decide_True, Bool.or_true,
      and_self, if_true] at hfeed2 hedge2
    obtain ⟨sp3, evs3, hrun3, htrace3⟩ :=
      run_loud_speaking p codec hout hvad hcodec rest
        (fun f hf => hloud f (by simp [hf])) (1 + 1)
    obtain ⟨p4, evs4, hrun4, htrace4⟩ :=
      run_quiet_phase p codec hout hvad hcodec quiet hquiet sp3
    have hrest := runCalls_append _ _ _ _ _ _ _ hrun3 hrun4
    have hstep2 := runCalls_cons (runningWith p false 1 0) _ _ (Call.Feed f2)
      (rest.map Call.Feed ++ quiet.map Call.Feed) ev2 (evs3 ++ evs4)
      (by simpa [stepCall] using hfeed2) hrest
    have hstep1 := runCalls_cons (runningWith p false 0 0) _ _ (Call.Feed f1) _ ev1 _
      (by simpa [stepCall] using hfeed1) hstep2
    have hstart := runCalls_cons p (runningWith p false 0 0) _ Call.Start _ [] _
      (by rfl) hstep1
    have htrace : (([] : List SinkEvent) :: ev1 :: ev2 :: (evs3 ++ evs4)).map vadEdges =
        ([] :: [] :: [true] :: List.replicate ((f1 :: f2 :: rest).length - 2) []) ++
          (if quiet.length < 10 then List.replicate quiet.length []
           else List.replicate 9 [] ++ [false] :: List.replicate (quiet.length - 10) []) := by
      simp only [List.map_cons, List.map_append, hedge1, hedge2, htrace3, htrace4,
        List.length_cons, Nat.add_sub_cancel, List.cons_append]
      rfl
    refine ⟨p4, _, ?_, htrace, ?_⟩
    · simpa using hstart
    · rw [vadEdges_flatten, htrace]
      split_ifs <;> simp

/-- Witness for C5: 2 frames at peak 1500 then 9 frames at peak 300 deliver
exactly `[true]`; with a 10th frame at peak 300 they deliver `[true, false]`. -/
theorem speech_then_silence_edges_witness :
    (∃ p1 evs,
      runCalls (Initialize (NoAudioProcessor.initial true true) (some ⟨1, 24000⟩) 60)
        (Call.Start :: ([[1500], [-1500, 7]] ++ List.replicate 9 [300]).map Call.Feed)
        = some (p1, evs) ∧
      vadEdges evs.flatten = [true]) ∧
    (∃ p1 evs,
      runCalls (Initialize (NoAudioProcessor.initial true true) (some ⟨1, 24000⟩) 60)
        (Call.Start :: ([[1500], [-1500, 7]] ++ List.replicate 10 [300]).map Call.Feed)
        = some (p1, evs) ∧
      vadEdges evs.flatten = [true, false]) :=
  ⟨match speech_then_silence_edges
      (Initialize (NoAudioProcessor.initial true true) (some ⟨1, 24000⟩) 60) ⟨1, 24000⟩
      [[1500], [-1500, 7]] (List.replicate 9 [300]) rfl rfl rfl (by decide) (by decide)
      (by decide) with
    | ⟨p1, evs, hrun, _, hedges⟩ => ⟨p1, evs, hrun, hedges⟩,
   match speech_then_silence_edges
      (Initialize (NoAudioProcessor.initial true true) (some ⟨1, 24000⟩) 60) ⟨1, 24000⟩
      [[1500], [-1500, 7]] (List.replicate 10 [300]) rfl rfl rfl (by decide) (by decide)
      (by decide) with
    | ⟨p1, evs, hrun, _, hedges⟩ => ⟨p1, evs, hrun, hedges⟩⟩

/-! ### Alternation of edges -/

/-- C10 at the failing input. From the initial state with both sinks
registered and a mono codec: `Start`, two loud frames, `Start` again, two loud
frames delivers the edges `[true, true]`; and `Start`, two loud frames,
`Start`, `Stop` delivers `[true]`, so the last edge before that `Stop`
returns is `true`. -/
theorem start_while_speaking_drops_false_edge :
    (runCalls (Initialize (NoAudioProcessor.initial true true) (some ⟨1, 24000⟩) 60)
      [Call.Start, Call.Feed [1500], Call.Feed [1500],
       Call.Start, Call.Feed [1500], Call.Feed [1500]]).map
        (fun r => vadEdges r.2.flatten) = some [true, true] ∧
    (runCalls (Initialize (NoAudioProcessor.initial true true) (some ⟨1, 24000⟩) 60)
      [Call.Start, Call.Feed [1500], Call.Feed [1500], Call.Start, Call.Stop]).map
        (fun r => vadEdges r.2.flatten) = some [true] := by
  constructor <;> decide

end VoiceActivity

namespace HandsFree

open DeviceState

/-! ### Ticks while hands-free is disabled -/

/-- C11, as stated, fails: a tick with hands-free disabled, the session
`Listening` and the button not held issues exactly `[ToggleChatState]`, with no
`EnableWakeWordDetection(false)` among its commands. -/
theorem disabled_listening_tick_leaves_wake_word_alone :
    (TryStartHandsFreeListening true { hands_free_enabled_ := false }
      ⟨kDeviceStateListening, true, false, 40000000⟩).2 = [Cmd.ToggleChatState] ∧
    Cmd.EnableWakeWordDetection false ∉
      (TryStartHandsFreeListening true { hands_free_enabled_ := false }
        ⟨kDeviceStateListening, true, false, 40000000⟩).2 := by
  constructor <;> decide

/-- C11, amended: for every tick taken while hands-free is disabled, whatever
the button, audio-busy and voice-detected inputs are: when the session is
`Idle` the tick commands `EnableWakeWordDetection(false)` (its only command)
and leaves the board unchanged; in every other session state it issues no
wake-word command at all. -/
theorem disabled_tick_wake_word (useWakeWord : Bool) (b : Esp32c3Inmp441Board)
    (e : AppEnv) (hdis : b.hands_free_enabled_ = false) :
    (e.device_state = kDeviceStateIdle →
      TryStartHandsFreeListening useWakeWord b e
        = (b, [Cmd.EnableWakeWordDetection false])) ∧
    (e.device_state ≠ kDeviceStateIdle →
      ∀ enable : Bool, Cmd.EnableWakeWordDetection enable ∉
        (TryStartHandsFreeListening useWakeWord b e).2) := by
  constructor
  · intro hidle
    simp [TryStartHandsFreeListening, HANDS_FREE_AUTO_LISTEN, hdis, hidle]
  · intro hne enable
    unfold TryStartHandsFreeListening
    simp only [hdis, HANDS_FREE_AUTO_LISTEN, one_ne_zero, if_false, Bool.not_false, if_true,
      if_neg hne]
    split_ifs <;> simp

/-- Witness for C11 amended: disabled, session `Idle`, button held, audio busy,
voice detected. -/
theorem disabled_tick_wake_word_witness :
    TryStartHandsFreeListening false
      { hands_free_enabled_ := false, boot_button_pressed_ := true }
      ⟨kDeviceStateIdle, false, true, 40000000⟩
      = ({ hands_free_enabled_ := false, boot_button_pressed_ := true },
         [Cmd.EnableWakeWordDetection false]) :=
  (disabled_tick_wake_word false
    { hands_free_enabled_ := false, boot_button_pressed_ := true }
    ⟨kDeviceStateIdle, false, true, 40000000⟩ rfl).1 rfl

end HandsFree
